import Mathlib

/-!
Verification development for the e-commerce / ingestion repository.

The definitions below are shallow embeddings of the Python source:
  * app/core/security.py           (JWT token creation)
  * backend/app/ingest/chunk.py    (Chunk record and its embedding formatter)
  * backend/app/ingest/ingest_repo.py (file-discovery extension filter)
  * app/models/category.py         (level and full_path parent-chain walks)
  * app/models/coupon.py           (discount calculation)
  * app/repositories/*.py and app/services/*.py (cart, order, payment flows)

Conventions: Python dict-shaped JWT payloads are total functions from claim
names to optional values; database tables are either keyed functions
(id to optional row) or plain lists of rows; money (DECIMAL columns and the
float arithmetic applied to them) is modelled as exact rationals; datetimes
are integers (an abstract clock passed as a parameter named now).
Error raising (HTTPException) is modelled with Except; a service call that
can mutate state returns the possibly-mutated state alongside the result,
so that an error result leaving the state intact is a provable fact of the
embedding rather than a by-construction artifact.
French user-facing messages are kept close to the source but stripped of
apostrophes and accents; no claim depends on exact message text.
-/

/-! ## JWT tokens (app/core/security.py)

jwt.encode and jwt.decode with a fixed secret are abstracted away:
a token is identified with the claim payload that gets signed, which is
exactly what decode_token returns for a token this module issued.
-/

/-- A JWT claim value: either a string claim or a timestamp claim. -/
inductive JwtVal where
  | str (v : String)
  | time (v : Int)
deriving DecidableEq

/-- A Python dict of claims: claim name to optional value. -/
def JwtDict : Type := String → Option JwtVal

/-- The empty claims dict. -/
def JwtDict.empty : JwtDict := fun _ => none

/-- Python dict assignment d[k] = v (also the effect of dict.update on one key). -/
def JwtDict.set (d : JwtDict) (k : String) (v : JwtVal) : JwtDict :=
  fun k' => if k' = k then some v else d k'

/-- settings.ACCESS_TOKEN_EXPIRE_MINUTES default (config.py). -/
def ACCESS_TOKEN_EXPIRE_MINUTES : Int := 30

/-- create_access_token(data, expires_delta): copies data, then updates it with
exp, iat and type = "access".  The update runs over whatever data held, so a
type claim already present in data is overwritten.  expires_delta is in
seconds here (timedelta abstracted to a second count). -/
def create_access_token (data : JwtDict) (expires_delta : Option Int)
    (now : Int) : JwtDict :=
  let expire : Int :=
    match expires_delta with
    | some d => now + d
    | none => now + ACCESS_TOKEN_EXPIRE_MINUTES * 60
  (((data.set "exp" (.time expire)).set "iat" (.time now)).set "type" (.str "access"))

/-- create_email_verification_token(email): data = {sub: email, type: "email_verification"},
24-hour expiry, delegated to create_access_token. -/
def create_email_verification_token (email : String) (now : Int) : JwtDict :=
  let data := (JwtDict.empty.set "sub" (.str email)).set "type" (.str "email_verification")
  create_access_token data (some (24 * 3600)) now

/-- create_password_reset_token(email): data = {sub: email, type: "password_reset"},
1-hour expiry, delegated to create_access_token. -/
def create_password_reset_token (email : String) (now : Int) : JwtDict :=
  let data := (JwtDict.empty.set "sub" (.str email)).set "type" (.str "password_reset")
  create_access_token data (some 3600) now

/-- Modelled from the spec: app/services/auth.py is not in the source tree;
per the spec (Auth service), verify_email decodes an email-verification token
and requires its claimed type, i.e. it accepts exactly the payloads whose
type claim equals "email_verification". -/
def verify_email_flow_accepts (payload : JwtDict) : Bool :=
  payload "type" == some (.str "email_verification")

/-- Modelled from the spec: app/services/auth.py is not in the source tree;
per the spec (Auth service), reset_password decodes a password-reset token
and requires its claimed type, i.e. it accepts exactly the payloads whose
type claim equals "password_reset". -/
def reset_password_flow_accepts (payload : JwtDict) : Bool :=
  payload "type" == some (.str "password_reset")

/-! ## Chunk record and its embedding formatter (backend/app/ingest/chunk.py)

The dataclass declares fields id, name, type, language, path, code, params,
imports, role, summary, metadata.  to_embedding reads self.file_path, an
attribute that does not exist on the class (the field is named path) and is
never assigned anywhere in the repository, so Python raises AttributeError.
Attribute lookup is embedded explicitly so that this failure is visible.
-/

/-- The Chunk dataclass fields (metadata map omitted: never read by the formatter). -/
structure Chunk where
  id : String
  name : Option String := none
  type : String := "unknown"
  language : String := "unknown"
  path : String := ""
  code : String := ""
  params : List String := []
  imports : List String := []
  role : Option String := none
  summary : Option String := none
deriving DecidableEq

/-- Python attribute lookup restricted to the string-valued attributes the
formatter dereferences directly.  The Chunk class has an attribute named
path but none named file_path, so lookup of "file_path" yields none. -/
def Chunk.getStrAttr (c : Chunk) : String → Option String
  | "id" => some c.id
  | "type" => some c.type
  | "language" => some c.language
  | "path" => some c.path
  | "code" => some c.code
  | _ => none

/-- Python str() of an optional value: None renders as "None". -/
def pyStrOpt : Option String → String
  | some s => s
  | none => "None"

/-- to_embedding: builds the parts list (Type, Nom, Langage, Fichier, then the
optional Role / Parametres / Imports / Resume lines, then "Code:" and the raw
code) and joins with newlines.  The Fichier line reads self.file_path, which
is not an attribute of Chunk, so the call raises AttributeError before any
string is produced; the error is the Except.error branch here. -/
def Chunk.to_embedding (c : Chunk) : Except String String :=
  match c.getStrAttr "file_path" with
  | none => .error "AttributeError: Chunk object has no attribute file_path"
  | some fp =>
    let parts : List String :=
      ["Type: " ++ c.type,
       "Nom: " ++ pyStrOpt c.name,
       "Langage: " ++ c.language,
       "Fichier: " ++ fp]
    let parts := parts ++ (match c.role with
      | some r => ["Role: " ++ r]
      | none => [])
    let parts := parts ++ (if c.params.isEmpty then []
      else ["Parametres: " ++ String.intercalate ", " c.params])
    let parts := parts ++ (if c.imports.isEmpty then []
      else ["Imports: " ++ String.intercalate ", " c.imports])
    let parts := parts ++ (match c.summary with
      | some s => ["Resume: " ++ s]
      | none => [])
    let parts := parts ++ ["Code:", c.code]
    .ok (String.intercalate "\n" parts)

/-! ## Repository walker file filter (backend/app/ingest/ingest_repo.py) -/

/-- SUPORTED_EXT = [".js", ".md", ".yml", "yaml"] (sic). -/
def SUPORTED_EXT : List String := [".js", ".md", ".yml", "yaml"]

/-- Python str.endswith, phrased over the character lists of the strings so
that concrete instances reduce. -/
def str_endswith (s suffix : String) : Bool :=
  List.isSuffixOf suffix.data s.data

/-- The get_file keep test: any(file.endswith(ext) for ext in SUPORTED_EXT).
Note this is str.endswith on every entry, including the bare "yaml". -/
def keeps_file (file : String) : Bool :=
  SUPORTED_EXT.any (fun ext => str_endswith file ext)

/-! ## Category level and full_path (app/models/category.py)

The parent graph of the categories table is a map from category id to
optional parent id, plus a name per id.  Both properties walk the parent
chain with a defensive break; the walks are embedded fuel-indexed, one unit
of fuel per loop iteration (one parent hop), with none meaning the loop is
still running after that many hops.  Termination of the Python loop within
n hops is exactly the statement that the fuel-n run returns some.
-/

/-- One loop of Category.level: while current.parent_id is not None:
level += 1; current = current.parent; if level > 10: break.  Returns the
level at loop exit, or none if fuel ran out before the loop exited. -/
def levelLoop (parent : Nat → Option Nat) : Nat → Nat → Nat → Option Nat
  | 0, _, _ => none
  | fuel + 1, cur, lvl =>
    match parent cur with
    | none => some lvl
    | some p =>
      let lvl' := lvl + 1
      if lvl' > 10 then some lvl'
      else levelLoop parent fuel p lvl'

/-- Category.level: 0 for a root, else the loop starting at level 0.
Fuel 11 is enough for the loop to finish on every graph (proved below). -/
def category_level (parent : Nat → Option Nat) (c : Nat) : Option Nat :=
  if parent c = none then some 0
  else levelLoop parent 11 c 0

/-- One loop of Category.full_path: while current.parent_id is not None:
current = current.parent; path.insert(0, current.name); if len(path) > 10:
break.  Returns the path list at loop exit (root first), or none if fuel ran
out before the loop exited. -/
def fullPathLoop (parent : Nat → Option Nat) (name : Nat → String) :
    Nat → Nat → List String → Option (List String)
  | 0, _, _ => none
  | fuel + 1, cur, path =>
    match parent cur with
    | none => some path
    | some p =>
      let path' := name p :: path
      if path'.length > 10 then some path'
      else fullPathLoop parent name fuel p path'

/-- Category.full_path: the name for a root, else " > ".join of the walked
path starting from [self.name].  Fuel 10 is enough on every graph. -/
def category_full_path (parent : Nat → Option Nat) (name : Nat → String)
    (c : Nat) : Option String :=
  if parent c = none then some (name c)
  else (fullPathLoop parent name 10 c [name c]).map (String.intercalate " > ")

/-! ## E-commerce domain model (app/models/*.py)

Rows are plain structures; DECIMAL money columns are rationals; Python int
columns (stock, quantity) are integers.
-/

/-- OrderStatus enum (app/models/order.py). -/
inductive OrderStatus where
  | pending | paid | shipped | delivered | cancelled | refunded
deriving DecidableEq

/-- PaymentStatus enum (app/models/payment.py). -/
inductive PaymentStatus where
  | pending | success | failed | refunded
deriving DecidableEq

/-- DiscountType enum (app/models/coupon.py). -/
inductive DiscountType where
  | percentage | fixed
deriving DecidableEq

/-- The Product row columns read by the services in scope. -/
structure Product where
  name : String
  price : ℚ
  stock : ℤ
  is_active : Bool
deriving DecidableEq

/-- The Order row columns (items live in their own table). -/
structure OrderRow where
  user_id : Nat
  status : OrderStatus
  total_amount : ℚ
  billing_address_id : Option Nat := none
  shipping_address_id : Option Nat := none
deriving DecidableEq

/-- An order_items row. -/
structure OItem where
  order_id : Nat
  product_id : Nat
  quantity : ℤ
  unit_price : ℚ
deriving DecidableEq

/-- A carts row (one cart per user). -/
structure CartRow where
  id : Nat
  user_id : Nat
deriving DecidableEq

/-- A cart_items row; price is the unit price captured at add time. -/
structure CartItem where
  id : Nat
  cart_id : Nat
  product_id : Nat
  quantity : ℤ
  price : ℚ
deriving DecidableEq

/-- The Payment row columns read by PaymentService. -/
structure Payment where
  order_id : Nat
  status : PaymentStatus
  amount : ℚ
  transaction_reference : Option String := none
  paid_at : Option Int := none
deriving DecidableEq

/-- The Coupon row columns (app/models/coupon.py). -/
structure Coupon where
  code : String
  discount_type : DiscountType
  discount_value : ℚ
  min_order_amount : Option ℚ := none
  expires_at : Option Int := none
  is_active : Bool := true
deriving DecidableEq

/-- Coupon.is_expired: False without an expiry, else utcnow() > expires_at. -/
def Coupon.is_expired (c : Coupon) (now : Int) : Bool :=
  match c.expires_at with
  | none => false
  | some e => decide (e < now)

/-- Coupon.is_valid: active and not expired. -/
def Coupon.is_valid (c : Coupon) (now : Int) : Bool :=
  c.is_active && !(c.is_expired now)

/-- Coupon.calculate_discount(order_amount).  The min_order_amount guard is
Python truthiness: it fires only when the column is neither NULL nor zero.
Percentage: min(amount * value / 100, amount); fixed: min(value, amount). -/
def Coupon.calculate_discount (c : Coupon) (now : Int) (order_amount : ℚ) : ℚ :=
  if !(c.is_valid now) then 0
  else if (match c.min_order_amount with
           | some m => decide (m ≠ 0) && decide (order_amount < m)
           | none => false) then 0
  else if c.discount_type = .percentage then
    min (order_amount * (c.discount_value / 100)) order_amount
  else
    min c.discount_value order_amount

/-- The database state threaded through repository calls: the tables the
claims touch, plus a fresh-id counter standing in for autoincrement keys. -/
structure DB where
  products : Nat → Option Product
  orders : Nat → Option OrderRow
  order_items : List OItem
  carts : List CartRow
  cart_items : List CartItem
  payments : Nat → Option Payment
  coupons : String → Option Coupon
  next_id : Nat

/-! ## Product repository (app/repositories/product.py) -/

/-- BaseRepository.update on products restricted to the stock column
(update_stock): a no-op when the row is absent. -/
def product_set_stock (db : DB) (pid : Nat) (s : ℤ) : DB :=
  match db.products pid with
  | none => db
  | some p =>
    { db with products := fun k => if k = pid then some { p with stock := s } else db.products k }

/-- ProductRepository.decrease_stock: new_stock = max(0, stock - quantity);
returns the reloaded row (none when the product does not exist). -/
def decrease_stock (db : DB) (pid : Nat) (quantity : ℤ) : Option Product × DB :=
  match db.products pid with
  | none => (none, db)
  | some p =>
    let new_stock := max 0 (p.stock - quantity)
    let db' := product_set_stock db pid new_stock
    (db'.products pid, db')

/-- ProductRepository.increase_stock: new_stock = stock + quantity. -/
def increase_stock (db : DB) (pid : Nat) (quantity : ℤ) : Option Product × DB :=
  match db.products pid with
  | none => (none, db)
  | some p =>
    let new_stock := p.stock + quantity
    let db' := product_set_stock db pid new_stock
    (db'.products pid, db')

/-! ## Cart repositories (app/repositories/cart.py) -/

/-- CartRepository.get_by_user_id: the (unique) cart row of the user. -/
def cart_get_by_user_id (db : DB) (uid : Nat) : Option CartRow :=
  db.carts.find? (fun c => c.user_id == uid)

/-- The items relationship loaded on a cart: its cart_items rows. -/
def cart_items_of (db : DB) (cart_id : Nat) : List CartItem :=
  db.cart_items.filter (fun it => it.cart_id == cart_id)

/-- Cart.subtotal: sum of item subtotals (price times quantity). -/
def cart_subtotal (items : List CartItem) : ℚ :=
  (items.map (fun it => it.price * (it.quantity : ℚ))).sum

/-- CartRepository.clear: delete every cart_items row of the cart. -/
def cart_clear (db : DB) (cart_id : Nat) : DB :=
  { db with cart_items := db.cart_items.filter (fun it => !(it.cart_id == cart_id)) }

/-- CartItemRepository.get_by_cart_and_product.  scalar_one_or_none assumes
at most one matching row (the one-line-per-product invariant proved below);
the embedding takes the first. -/
def get_by_cart_and_product (db : DB) (cart_id product_id : Nat) : Option CartItem :=
  db.cart_items.find? (fun it => it.cart_id == cart_id && it.product_id == product_id)

/-- BaseRepository.update on cart_items restricted to the quantity column. -/
def cartitem_set_quantity (db : DB) (item_id : Nat) (q : ℤ) : DB :=
  { db with cart_items :=
      db.cart_items.map (fun it => if it.id = item_id then { it with quantity := q } else it) }

/-- CartItemRepository.add_item: increment the existing matching line, or
insert a fresh line with the given quantity and captured unit price. -/
def add_item (db : DB) (cart_id product_id : Nat) (quantity : ℤ) (price : ℚ) : DB :=
  match get_by_cart_and_product db cart_id product_id with
  | some existing_item =>
      cartitem_set_quantity db existing_item.id (existing_item.quantity + quantity)
  | none =>
      { db with
        cart_items := db.cart_items ++
          [{ id := db.next_id, cart_id := cart_id, product_id := product_id,
             quantity := quantity, price := price }],
        next_id := db.next_id + 1 }

/-! ## Order repositories (app/repositories/order.py) -/

/-- The items relationship loaded on an order: its order_items rows. -/
def order_items_of (db : DB) (order_id : Nat) : List OItem :=
  db.order_items.filter (fun it => it.order_id == order_id)

/-- BaseRepository.update on orders restricted to the status column
(OrderRepository.update_status); returns the reloaded row. -/
def order_update_status (db : DB) (order_id : Nat) (st : OrderStatus) :
    Option OrderRow × DB :=
  match db.orders order_id with
  | none => (none, db)
  | some o =>
    let db' := { db with orders := fun k =>
        if k = order_id then some { o with status := st } else db.orders k }
    (db'.orders order_id, db')

/-- BaseRepository.create on orders: insert under a fresh autoincrement id. -/
def order_create (db : DB) (row : OrderRow) : Nat × DB :=
  let oid := db.next_id
  (oid, { db with
          orders := fun k => if k = oid then some row else db.orders k,
          next_id := db.next_id + 1 })

/-- OrderItemRepository.bulk_create_items: insert one order_items row per
cart line, copying product, quantity and the captured price. -/
def bulk_create_items (db : DB) (order_id : Nat) (items : List CartItem) : DB :=
  { db with order_items := db.order_items ++
      items.map (fun it =>
        { order_id := order_id, product_id := it.product_id,
          quantity := it.quantity, unit_price := it.price }) }

/-- Order.can_be_cancelled: status in [PENDING, PAID]. -/
def can_be_cancelled (st : OrderStatus) : Bool :=
  st = OrderStatus.pending || st = OrderStatus.paid

/-! ## Coupon and payment repositories

app/repositories/coupon.py and app/repositories/payment.py are not in the
source tree (only their callers are); the two definitions marked as modelled
from the spec embed the contracts the spec states for them.
-/

/-- Modelled from the spec: repositories/coupon.py is missing from the tree;
per the spec (Domain repositories), validate-code returns validity, the
coupon if found, and an error reason: not-found, inactive, or expired. -/
def validate_code (db : DB) (code : String) (now : Int) :
    Bool × Option Coupon × Option String :=
  match db.coupons code with
  | none => (false, none, some "Code promo invalide")
  | some c =>
    if !c.is_active then (false, some c, some "Coupon inactif")
    else if c.is_expired now then (false, some c, some "Coupon expire")
    else (true, some c, none)

/-- Modelled from the spec: repositories/payment.py is missing from the tree;
per the spec (Domain repositories), mark-as-success sets status=success,
stores the transaction reference and sets paid-at to now. -/
def mark_as_success (db : DB) (payment_id : Nat) (ref : String) (now : Int) :
    Option Payment × DB :=
  match db.payments payment_id with
  | none => (none, db)
  | some pay =>
    let pay' := { pay with
      status := PaymentStatus.success
      transaction_reference := some ref
      paid_at := some now }
    let db' := { db with payments := fun k =>
        if k = payment_id then some pay' else db.payments k }
    (db'.payments payment_id, db')

/-! ## Error taxonomy of the service layer (HTTPException by status code) -/

/-- The HTTPException kinds the embedded services raise. -/
inductive HErr where
  | badRequest (detail : String)
  | notFound (detail : String)
  | forbidden (detail : String)
deriving DecidableEq

/-! ## Order service (app/services/order.py) -/

/-- The request body of POST /orders (schemas OrderFromCart). -/
structure OrderFromCart where
  coupon_code : Option String := none
  billing_address_id : Option Nat := none
  shipping_address_id : Option Nat := none

/-- The availability-validation loop of create_order_from_cart, in cart-line
order: a missing or inactive product, or stock below the requested quantity,
raises a 400; otherwise the loop moves on. -/
def validate_items (db : DB) : List CartItem → Option HErr
  | [] => none
  | it :: rest =>
    match db.products it.product_id with
    | none => some (.badRequest "Le produit nest plus disponible")
    | some p =>
      if !p.is_active then some (.badRequest "Le produit nest plus disponible")
      else if p.stock < it.quantity then some (.badRequest "Stock insuffisant")
      else validate_items db rest

/-- The coupon step of create_order_from_cart: no code means the subtotal
stands; an invalid code raises 400 with the validation error; a valid coupon
subtracts its calculate_discount from the total. -/
def coupon_step (db : DB) (od : OrderFromCart) (total : ℚ) (now : Int) :
    Except HErr ℚ :=
  match od.coupon_code with
  | none => .ok total
  | some code =>
    match validate_code db code now with
    | (false, _, err) => .error (.badRequest (err.getD "Code promo invalide"))
    | (true, some coupon, _) => .ok (total - coupon.calculate_discount now total)
    | (true, none, _) => .ok total

/-- OrderService.create_order_from_cart: load the cart (400 when absent or
empty), validate every line, compute the total, apply the optional coupon,
create the order row (status pending), bulk-create its items, decrease stock
per line, clear the cart, and return the new order id.  An error leaves the
returned state exactly as received. -/
def create_order_from_cart (db : DB) (user_id : Nat) (od : OrderFromCart)
    (now : Int) : Except HErr Nat × DB :=
  match cart_get_by_user_id db user_id with
  | none => (.error (.badRequest "Le panier est vide"), db)
  | some cart =>
    let items := cart_items_of db cart.id
    if items.isEmpty then (.error (.badRequest "Le panier est vide"), db)
    else
      match validate_items db items with
      | some e => (.error e, db)
      | none =>
        let total_amount := cart_subtotal items
        match coupon_step db od total_amount now with
        | .error e => (.error e, db)
        | .ok total =>
          let (oid, db1) := order_create db
            { user_id := user_id, status := OrderStatus.pending,
              total_amount := total,
              billing_address_id := od.billing_address_id,
              shipping_address_id := od.shipping_address_id }
          let db2 := bulk_create_items db1 oid items
          let db3 := items.foldl
            (fun d it => (decrease_stock d it.product_id it.quantity).2) db2
          let db4 := cart_clear db3 cart.id
          (.ok oid, db4)

/-- The ownership guard of get_order_by_id: if user_id and
order.user_id != user_id - Python truthiness, so a None (and a zero) caller
id skips the check entirely. -/
def owner_mismatch (o : OrderRow) (user_id : Option Nat) : Bool :=
  match user_id with
  | some u => decide (u ≠ 0) && decide (o.user_id ≠ u)
  | none => false

/-- OrderService.cancel_order: load the order (404 when absent, 403 when a
truthy user_id differs from the owner), refuse 400 unless can_be_cancelled,
else restore stock line by line and set the status to cancelled. -/
def cancel_order (db : DB) (order_id : Nat) (user_id : Option Nat) :
    Except HErr (Option OrderRow) × DB :=
  match db.orders order_id with
  | none => (.error (.notFound "Commande non trouvee"), db)
  | some o =>
    if owner_mismatch o user_id then
      (.error (.forbidden "Vous navez pas acces a cette commande"), db)
    else if !(can_be_cancelled o.status) then
      (.error (.badRequest "Cette commande ne peut plus etre annulee"), db)
    else
      let items := order_items_of db order_id
      let db1 := items.foldl
        (fun d it => (increase_stock d it.product_id it.quantity).2) db
      let (res, db2) := order_update_status db1 order_id OrderStatus.cancelled
      (.ok res, db2)

/-! ## Payment service (app/services/payment.py) -/

/-- PaymentService.process_payment: load the payment (404 when absent), mark
it successful with the supplied transaction reference, and set the owning
order to paid.  No guard inspects the prior payment or order status. -/
def process_payment (db : DB) (payment_id : Nat) (transaction_reference : String)
    (now : Int) : Except HErr (Option Payment) × DB :=
  match db.payments payment_id with
  | none => (.error (.notFound "Paiement non trouve"), db)
  | some payment =>
    let (upd, db1) := mark_as_success db payment_id transaction_reference now
    let (_, db2) := order_update_status db1 payment.order_id OrderStatus.paid
    (.ok upd, db2)

/-! ## Claim C1 -/

/-- C1: the claim is refuted by the code.  create_access_token updates the
claim dict with type = "access" after copying the caller data, so the
email-verification and password-reset creators, which delegate to it, issue
tokens whose decoded type claim is "access", not "email_verification" or
"password_reset"; the flows that require those type claims therefore reject
every token they issued.  Only the sub claim survives as specified. -/
theorem c1_issued_token_type_overwritten (email : String) (now : Int) :
    (create_email_verification_token email now) "type" = some (.str "access") ∧
    (create_password_reset_token email now) "type" = some (.str "access") ∧
    (create_email_verification_token email now) "sub" = some (.str email) ∧
    (create_password_reset_token email now) "sub" = some (.str email) ∧
    verify_email_flow_accepts (create_email_verification_token email now) = false ∧
    reset_password_flow_accepts (create_password_reset_token email now) = false := by
  refine ⟨rfl, rfl, rfl, rfl, rfl, rfl⟩

/-! ## Claim C7 -/

/-- C7: the claim is refuted by the code.  Chunk.to_embedding dereferences
self.file_path, but the dataclass field is named path and no code in the
repository ever assigns a file_path attribute, so the formatter raises
AttributeError on every Chunk instead of returning the formatted string. -/
theorem c7_to_embedding_always_fails (c : Chunk) :
    c.to_embedding =
      .error "AttributeError: Chunk object has no attribute file_path" := by
  rfl

/-! ## Claim C8 -/

/-- C8 counterexample: a file whose name contains "yaml" (here as a prefix)
but does not end with any of the four entries is excluded by the walker,
refuting the claimed substring semantics: the check is str.endswith, not a
substring match. -/
theorem c8_counterexample :
    keeps_file ("yaml" ++ "_config.txt") = false := by
  decide

/-- C8 amended: the walker keeps exactly the files whose name ends with
".js", ".md", ".yml", or the bare suffix "yaml" (so any name ending in
"yaml", including ".yaml" names but also e.g. "busyaml", is kept, while a
name merely containing "yaml" elsewhere is not). -/
theorem c8_keeps_file_suffix_semantics :
    (∀ f : String, keeps_file f =
      (str_endswith f ".js" || str_endswith f ".md" ||
       str_endswith f ".yml" || str_endswith f "yaml")) ∧
    keeps_file "config.yaml" = true ∧
    keeps_file "busyaml" = true ∧
    keeps_file "notes.md" = true ∧
    keeps_file "app.js" = true ∧
    keeps_file "myyamlfile.txt" = false ∧
    keeps_file "script.py" = false := by
  refine ⟨fun f => ?_, by decide, by decide, by decide, by decide, by decide, by decide⟩
  simp [keeps_file, SUPORTED_EXT, List.any, Bool.or_assoc]

/-! ## Claim C9 -/

/-- The level loop exits once the running level passes 10, so any fuel
budget covering 11 iterations returns a value, on every parent graph. -/
theorem levelLoop_isSome (parent : Nat → Option Nat) :
    ∀ (fuel : Nat) (cur lvl : Nat), 11 ≤ fuel + lvl → 1 ≤ fuel →
      (levelLoop parent fuel cur lvl).isSome = true := by
  intro fuel
  induction fuel with
  | zero => intro cur lvl _ h1; omega
  | succ f ih =>
    intro cur lvl h11 _
    rw [levelLoop]
    cases hp : parent cur with
    | none => rfl
    | some p =>
      simp only []
      by_cases hl : lvl + 1 > 10
      · simp [hl]
      · simp only [hl, if_false]
        exact ih p (lvl + 1) (by omega) (by omega)

/-- The full_path loop exits once the path passes 10 entries, so any fuel
budget covering 10 iterations returns a value, on every parent graph. -/
theorem fullPathLoop_isSome (parent : Nat → Option Nat) (name : Nat → String) :
    ∀ (fuel : Nat) (cur : Nat) (path : List String),
      11 ≤ fuel + path.length → 1 ≤ fuel →
      (fullPathLoop parent name fuel cur path).isSome = true := by
  intro fuel
  induction fuel with
  | zero => intro cur path _ h1; omega
  | succ f ih =>
    intro cur path h11 _
    rw [fullPathLoop]
    cases hp : parent cur with
    | none => rfl
    | some p =>
      simp only [List.length_cons, gt_iff_lt]
      by_cases hl : 10 < path.length + 1
      · rw [if_pos hl]; rfl
      · rw [if_neg hl]
        exact ih p (name p :: path) (by simp only [List.length_cons]; omega) (by omega)

/-- C9 counterexample: on a category whose parent pointer loops back to
itself, the level loop is still running after 10 parent hops (10 units of
fuel are exhausted without the loop exiting), refuting the claimed 10-hop
cap for the level computation: its guard (level > 10) only fires after the
11th increment. -/
theorem c9_counterexample :
    levelLoop (fun _ => some 0) 10 0 0 = none := by
  rfl

/-- C9 amended: the level and full_path computations terminate on every
parent graph, cyclic ones included: full_path exits within 10 parent hops,
and level exits within 11 parent hops (not 10: its break fires only once
the incremented level exceeds 10), each returning a value instead of
looping forever. -/
theorem c9_level_full_path_terminate (parent : Nat → Option Nat)
    (name : Nat → String) (c : Nat) :
    (category_level parent c).isSome = true ∧
    (category_full_path parent name c).isSome = true := by
  constructor
  · rw [category_level]
    by_cases h : parent c = none
    · simp [h]
    · simp only [h, if_false]
      exact levelLoop_isSome parent 11 c 0 (by omega) (by omega)
  · rw [category_full_path]
    by_cases h : parent c = none
    · simp [h]
    · simp only [h, if_false]
      have h10 := fullPathLoop_isSome parent name 10 c [name c] (by simp) (by omega)
      cases hq : fullPathLoop parent name 10 c [name c] with
      | none => rw [hq] at h10; exact absurd h10 (by simp)
      | some v => simp

/-! ## Claim C6 -/

/-- C6: decrease_stock on an existing product sets its stock to
max(0, old stock - quantity) and returns the updated row: the resulting
stock is never negative, even when the quantity exceeds the stock. -/
theorem c6_decrease_stock_floors_at_zero (db : DB) (pid : Nat) (q : ℤ)
    (p : Product) (h : db.products pid = some p) :
    (decrease_stock db pid q).1 = some { p with stock := max 0 (p.stock - q) } ∧
    (decrease_stock db pid q).2.products pid =
      some { p with stock := max 0 (p.stock - q) } ∧
    0 ≤ max 0 (p.stock - q) := by
  refine ⟨?_, ?_, le_max_left 0 _⟩ <;>
    simp [decrease_stock, product_set_stock, h]

/-- A one-product database: product 1 is active with stock 1. -/
def dbC6 : DB :=
  { products := fun k => if k = 1 then
      some { name := "Widget", price := 10, stock := 1, is_active := true }
      else none
    orders := fun _ => none
    order_items := []
    carts := []
    cart_items := []
    payments := fun _ => none
    coupons := fun _ => none
    next_id := 2 }

/-- C6 witness: decreasing stock 1 by quantity 2 leaves stock 0, not -1. -/
theorem c6_witness :
    (decrease_stock dbC6 1 2).2.products 1 =
      some { name := "Widget", price := 10, stock := 0, is_active := true } ∧
    (0 : ℤ) ≤ 0 := by
  have h := c6_decrease_stock_floors_at_zero dbC6 1 2
    { name := "Widget", price := 10, stock := 1, is_active := true } rfl
  refine ⟨?_, le_refl 0⟩
  rw [h.2.1]
  norm_num

/-! ## Claim C4 -/

/-- C4: for every coupon and non-negative order amount, calculate_discount
returns 0 when the coupon is invalid or the amount is below the stated
minimum; otherwise it returns min(amount * value/100, amount) for a
percentage coupon and min(value, amount) for a fixed one; in every case the
discount never exceeds the amount, so the resulting total is never
negative. -/
theorem c4_calculate_discount_spec (c : Coupon) (now : Int) (amount : ℚ)
    (h : 0 ≤ amount) :
    (c.is_valid now = false → c.calculate_discount now amount = 0) ∧
    (∀ m, c.min_order_amount = some m → amount < m →
       c.calculate_discount now amount = 0) ∧
    (c.is_valid now = true →
       (∀ m, c.min_order_amount = some m → m ≤ amount) →
       c.calculate_discount now amount =
         if c.discount_type = .percentage then
           min (amount * (c.discount_value / 100)) amount
         else min c.discount_value amount) ∧
    c.calculate_discount now amount ≤ amount ∧
    0 ≤ amount - c.calculate_discount now amount := by
  unfold Coupon.calculate_discount
  refine ⟨?_, ?_, ?_, ?_, ?_⟩
  · intro hv; simp [hv]
  · intro m hm hlt
    have hv : c.is_valid now = true ∨ c.is_valid now = false := by
      cases c.is_valid now <;> simp
    rcases hv with hv | hv
    · have hm0 : m ≠ 0 := by
        intro h0; rw [h0] at hlt; exact absurd (lt_of_le_of_lt h hlt) (lt_irrefl 0)
      simp [hv, hm, hm0, hlt]
    · simp [hv]
  · intro hv hge
    simp only [hv, Bool.not_true, Bool.false_eq_true, if_false]
    have hguard : (match c.min_order_amount with
        | some m => decide (m ≠ 0) && decide (amount < m)
        | none => false) = false := by
      cases hm : c.min_order_amount with
      | none => rfl
      | some m =>
        have := hge m hm
        simp [not_lt_of_ge this]
    rw [hguard]
    simp
  · split
    · exact h
    · split
      · exact h
      · split
        · exact min_le_right _ _
        · exact min_le_right _ _
  · have : c.calculate_discount now amount ≤ amount := by
      unfold Coupon.calculate_discount
      split
      · exact h
      · split
        · exact h
        · split
          · exact min_le_right _ _
          · exact min_le_right _ _
    unfold Coupon.calculate_discount at this
    linarith

/-- A 20 percent coupon with no minimum and no expiry. -/
def couponC4 : Coupon :=
  { code := "SAVE20", discount_type := .percentage, discount_value := 20,
    min_order_amount := none, expires_at := none, is_active := true }

/-- C4 witness: on an order of 50 the percentage coupon discounts 10,
within the order amount, leaving a non-negative total. -/
theorem c4_witness :
    couponC4.calculate_discount 0 50 = 10 ∧
    couponC4.calculate_discount 0 50 ≤ 50 ∧
    (0 : ℚ) ≤ 50 - couponC4.calculate_discount 0 50 := by
  have h := c4_calculate_discount_spec couponC4 0 50 (by norm_num)
  have hform := h.2.2.1 (by decide) (by intro m hm; cases hm)
  refine ⟨?_, h.2.2.2.1, h.2.2.2.2⟩
  rw [hform]
  norm_num [couponC4]

/-! ## Claim C10 -/

/-- C10: process_payment on any existing payment, regardless of its prior
status (pending, failed, even refunded), marks it successful with the
supplied transaction reference and a paid-at timestamp, and sets the owning
order (whatever its prior status) to paid; other payments are untouched.
No guard inspects the prior payment or order status, so a replayed webhook
re-marks a failed or refunded payment as successful. -/
theorem c10_process_payment_unconditional (db : DB) (pid : Nat) (ref : String)
    (now : Int) (pay : Payment) (h : db.payments pid = some pay) :
    (process_payment db pid ref now).1 =
      .ok (some { pay with
                  status := PaymentStatus.success
                  transaction_reference := some ref
                  paid_at := some now }) ∧
    (process_payment db pid ref now).2.payments pid =
      some { pay with
             status := PaymentStatus.success
             transaction_reference := some ref
             paid_at := some now } ∧
    (∀ o, db.orders pay.order_id = some o →
       (process_payment db pid ref now).2.orders pay.order_id =
         some { o with status := OrderStatus.paid }) ∧
    (∀ k, k ≠ pid → (process_payment db pid ref now).2.payments k = db.payments k) := by
  refine ⟨?_, ?_, ?_, ?_⟩
  · simp only [process_payment, mark_as_success, order_update_status, h]
    cases ho : db.orders pay.order_id <;> simp [ho]
  · simp only [process_payment, mark_as_success, order_update_status, h]
    cases ho : db.orders pay.order_id <;> simp [ho]
  · intro o ho
    simp [process_payment, mark_as_success, order_update_status, h, ho]
  · intro k hk
    simp only [process_payment, mark_as_success, order_update_status, h]
    cases ho : db.orders pay.order_id <;> simp [ho, hk]

/-- A database with one refunded payment (id 1) on one refunded order (id 7). -/
def dbC10 : DB :=
  { products := fun _ => none
    orders := fun k => if k = 7 then
        some { user_id := 3, status := OrderStatus.refunded, total_amount := 100 }
      else none
    order_items := []
    carts := []
    cart_items := []
    payments := fun k => if k = 1 then
        some { order_id := 7
               status := PaymentStatus.refunded
               amount := 100
               transaction_reference := some "tx_old"
               paid_at := some 5 }
      else none
    coupons := fun _ => none
    next_id := 8 }

/-- C10 witness: replaying a success webhook against an already refunded
payment re-marks it successful and forces the refunded order back to paid. -/
theorem c10_witness :
    (process_payment dbC10 1 "tx_new" 99).2.payments 1 =
      some { order_id := 7
             status := PaymentStatus.success
             amount := 100
             transaction_reference := some "tx_new"
             paid_at := some 99 } ∧
    (process_payment dbC10 1 "tx_new" 99).2.orders 7 =
      some { user_id := 3, status := OrderStatus.paid, total_amount := 100 } := by
  have h := c10_process_payment_unconditional dbC10 1 "tx_new" 99
    { order_id := 7
      status := PaymentStatus.refunded
      amount := 100
      transaction_reference := some "tx_old"
      paid_at := some 5 } rfl
  exact ⟨h.2.1,
    h.2.2.1 { user_id := 3, status := OrderStatus.refunded, total_amount := 100 } rfl⟩

/-! ## Claim C5 -/

/-- The cart lines of one cart for one product: the rows a duplicate-free
cart would hold at most one of. -/
def lines_for (db : DB) (cid pid : Nat) : List CartItem :=
  db.cart_items.filter (fun it => it.cart_id == cid && it.product_id == pid)

/-- Well-formedness of the cart_items table: primary keys are below the
autoincrement counter, primary keys are distinct, and no two rows share a
(cart, product) pair - the one-line-per-product invariant. -/
def cart_wf (db : DB) : Prop :=
  (∀ it ∈ db.cart_items, it.id < db.next_id) ∧
  (db.cart_items.map (fun it => it.id)).Nodup ∧
  db.cart_items.Pairwise
    (fun a b => ¬(a.cart_id = b.cart_id ∧ a.product_id = b.product_id))

/-- The no-shared-key relation on cart rows is symmetric. -/
theorem cart_key_symm :
    Symmetric (fun a b : CartItem =>
      ¬(a.cart_id = b.cart_id ∧ a.product_id = b.product_id)) := by
  intro a b h hc
  exact h ⟨hc.1.symm, hc.2.symm⟩

/-- Filtering a duplicate-free list whose only match is it0 yields [it0]. -/
theorem filter_eq_single {p : CartItem → Bool} :
    ∀ {l : List CartItem} {it0 : CartItem}, l.Nodup → it0 ∈ l → p it0 = true →
      (∀ a ∈ l, p a = true → a = it0) → l.filter p = [it0] := by
  intro l
  induction l with
  | nil => intro it0 _ h0; cases h0
  | cons a t ih =>
    intro it0 hnd h0 hk hu
    rcases List.mem_cons.mp h0 with h | h
    · subst h
      rw [List.filter_cons_of_pos hk]
      have ht : t.filter p = [] := by
        refine List.filter_eq_nil_iff.mpr ?_
        intro b hb hpb
        have hb0 : b = it0 := hu b (List.mem_cons_of_mem _ hb) hpb
        exact (List.nodup_cons.mp hnd).1 (hb0 ▸ hb)
      rw [ht]
    · have hpa : ¬ p a = true := by
        intro hpa
        have ha0 : a = it0 := hu a (List.mem_cons_self a t) hpa
        exact (List.nodup_cons.mp hnd).1 (ha0 ▸ h)
      rw [List.filter_cons_of_neg hpa]
      exact ih (List.nodup_cons.mp hnd).2 h hk
        (fun b hb hpb => hu b (List.mem_cons_of_mem _ hb) hpb)

/-- Filtering after a map that fixes every kept element and preserves the
test elsewhere is filtering the original list. -/
theorem filter_map_fixed {p : CartItem → Bool} {f : CartItem → CartItem} :
    ∀ {l : List CartItem},
      (∀ b ∈ l, p (f b) = p b ∧ (p b = true → f b = b)) →
      (l.map f).filter p = l.filter p := by
  intro l
  induction l with
  | nil => intro _; rfl
  | cons b t ih =>
    intro hc
    have hb := hc b (List.mem_cons_self b t)
    by_cases hpb : p b = true
    · rw [List.map_cons, List.filter_cons_of_pos (hb.1.trans hpb),
          List.filter_cons_of_pos hpb, hb.2 hpb,
          ih (fun x hx => hc x (List.mem_cons_of_mem _ hx))]
    · rw [List.map_cons, List.filter_cons_of_neg (by rw [hb.1]; exact hpb),
          List.filter_cons_of_neg hpb,
          ih (fun x hx => hc x (List.mem_cons_of_mem _ hx))]

/-- Mapping a function that fixes every member is the identity. -/
theorem map_fixed {f : CartItem → CartItem} :
    ∀ {l : List CartItem}, (∀ a ∈ l, f a = a) → l.map f = l := by
  intro l h
  rw [List.map_congr_left h]
  simp

/-- add_item on a cart that already holds a line for the product updates
that line in place: the invariant survives, the (cart, product) lines after
are exactly the incremented line, and every other (cart, product) pair is
untouched. -/
theorem add_item_existing (db : DB) (cid pid : Nat) (q : ℤ) (pr : ℚ)
    (it0 : CartItem) (hwf : cart_wf db)
    (hfind : get_by_cart_and_product db cid pid = some it0) :
    cart_wf (add_item db cid pid q pr) ∧
    lines_for (add_item db cid pid q pr) cid pid =
      [{ it0 with quantity := it0.quantity + q }] ∧
    (∀ cid' pid', ¬(cid' = cid ∧ pid' = pid) →
       lines_for (add_item db cid pid q pr) cid' pid' = lines_for db cid' pid') := by
  obtain ⟨hbound, hids, hpair⟩ := hwf
  have hfind' : db.cart_items.find?
      (fun it => it.cart_id == cid && it.product_id == pid) = some it0 := hfind
  have hmem : it0 ∈ db.cart_items := List.mem_of_find?_eq_some hfind'
  have hp0 := List.find?_some hfind'
  have hkey : it0.cart_id = cid ∧ it0.product_id = pid := by simpa using hp0
  have hadd : add_item db cid pid q pr =
      { db with cart_items := db.cart_items.map (fun it =>
          if it.id = it0.id then { it with quantity := it0.quantity + q } else it) } := by
    simp [add_item, hfind, cartitem_set_quantity]
  have hid : ∀ b : CartItem,
      (if b.id = it0.id then { b with quantity := it0.quantity + q } else b).id = b.id := by
    intro b; by_cases h : b.id = it0.id <;> simp [h]
  have hcart : ∀ b : CartItem,
      (if b.id = it0.id then { b with quantity := it0.quantity + q } else b).cart_id
        = b.cart_id := by
    intro b; by_cases h : b.id = it0.id <;> simp [h]
  have hprod : ∀ b : CartItem,
      (if b.id = it0.id then { b with quantity := it0.quantity + q } else b).product_id
        = b.product_id := by
    intro b; by_cases h : b.id = it0.id <;> simp [h]
  have hidsmap : ((db.cart_items.map (fun it =>
      if it.id = it0.id then { it with quantity := it0.quantity + q } else it)).map
        (fun it => it.id)).Nodup := by
    rw [List.map_map]
    have : ∀ a ∈ db.cart_items,
        ((fun it => it.id) ∘ (fun it =>
          if it.id = it0.id then { it with quantity := it0.quantity + q } else it)) a
          = (fun it => it.id) a := by
      intro a _; simp only [Function.comp]; exact hid a
    rw [List.map_congr_left this]
    exact hids
  refine ⟨⟨?_, ?_, ?_⟩, ?_, ?_⟩
  · rw [hadd]
    intro it hit
    obtain ⟨b, hb, rfl⟩ := List.mem_map.mp hit
    rw [hid b]
    exact hbound b hb
  · rw [hadd]
    exact hidsmap
  · rw [hadd]
    refine List.pairwise_map.mpr ?_
    refine hpair.imp ?_
    intro a b h hc
    rw [hcart a, hcart b, hprod a, hprod b] at hc
    exact h hc
  · rw [hadd]
    unfold lines_for
    refine filter_eq_single (List.Nodup.of_map _ hidsmap) ?_ ?_ ?_
    · exact List.mem_map.mpr ⟨it0, hmem, by simp⟩
    · simp [hkey.1, hkey.2]
    · intro a ha hpa
      obtain ⟨b, hb, rfl⟩ := List.mem_map.mp ha
      rw [Bool.and_eq_true, beq_iff_eq, beq_iff_eq, hcart b, hprod b] at hpa
      have hb0 : b = it0 := by
        by_contra hne
        exact List.Pairwise.forall cart_key_symm hpair hb hmem hne
          ⟨hpa.1.trans hkey.1.symm, hpa.2.trans hkey.2.symm⟩
      subst hb0
      simp
  · intro cid' pid' hne
    rw [hadd]
    unfold lines_for
    refine filter_map_fixed ?_
    intro b hb
    constructor
    · by_cases h : b.id = it0.id <;> simp [h]
    · intro hpb
      rw [Bool.and_eq_true, beq_iff_eq, beq_iff_eq] at hpb
      have hbne : b ≠ it0 := by
        intro he
        exact hne ⟨hpb.1.symm.trans (he ▸ hkey.1), hpb.2.symm.trans (he ▸ hkey.2)⟩
      have : b.id ≠ it0.id := by
        intro he
        exact hbne (List.inj_on_of_nodup_map hids hb hmem he)
      simp [this]

/-- add_item on a cart with no line for the product appends exactly one new
line with the given quantity and captured price: the invariant survives, the
(cart, product) lines after are exactly the new line, and every other
(cart, product) pair is untouched. -/
theorem add_item_fresh (db : DB) (cid pid : Nat) (q : ℤ) (pr : ℚ)
    (hwf : cart_wf db)
    (hfind : get_by_cart_and_product db cid pid = none) :
    cart_wf (add_item db cid pid q pr) ∧
    lines_for (add_item db cid pid q pr) cid pid =
      [{ id := db.next_id, cart_id := cid, product_id := pid,
         quantity := q, price := pr }] ∧
    (∀ cid' pid', ¬(cid' = cid ∧ pid' = pid) →
       lines_for (add_item db cid pid q pr) cid' pid' = lines_for db cid' pid') := by
  obtain ⟨hbound, hids, hpair⟩ := hwf
  have hfind' : db.cart_items.find?
      (fun it => it.cart_id == cid && it.product_id == pid) = none := hfind
  have hnone : ∀ a ∈ db.cart_items, ¬(a.cart_id = cid ∧ a.product_id = pid) := by
    intro a ha hc
    have := List.find?_eq_none.mp hfind' a ha
    simp [hc.1, hc.2] at this
  have hadd : add_item db cid pid q pr =
      { db with
        cart_items := db.cart_items ++
          [{ id := db.next_id, cart_id := cid, product_id := pid,
             quantity := q, price := pr }],
        next_id := db.next_id + 1 } := by
    simp [add_item, hfind]
  refine ⟨⟨?_, ?_, ?_⟩, ?_, ?_⟩
  · rw [hadd]
    intro it hit
    rcases List.mem_append.mp hit with h | h
    · exact Nat.lt_trans (hbound it h) (Nat.lt_succ_self _)
    · simp at h
      rw [h]
      exact Nat.lt_succ_self _
  · rw [hadd]
    simp only [List.map_append, List.map_cons, List.map_nil]
    refine List.nodup_append.mpr ⟨hids, by simp, ?_⟩
    intro x hx hx'
    simp at hx'
    obtain ⟨a, ha, hax⟩ := List.mem_map.mp hx
    have := hbound a ha
    omega
  · rw [hadd]
    refine List.pairwise_append.mpr ⟨hpair, by simp, ?_⟩
    intro a ha b hb
    simp at hb
    rw [hb]
    intro hc
    exact hnone a ha ⟨hc.1, hc.2⟩
  · rw [hadd]
    unfold lines_for
    rw [List.filter_append]
    have h1 : db.cart_items.filter
        (fun it => it.cart_id == cid && it.product_id == pid) = [] := by
      refine List.filter_eq_nil_iff.mpr ?_
      intro a ha hpa
      rw [Bool.and_eq_true, beq_iff_eq, beq_iff_eq] at hpa
      exact hnone a ha hpa
    rw [h1]
    simp
  · intro cid' pid' hne
    rw [hadd]
    unfold lines_for
    rw [List.filter_append]
    have h2 : List.filter (fun it => it.cart_id == cid' && it.product_id == pid')
        [{ id := db.next_id, cart_id := cid, product_id := pid,
           quantity := q, price := pr : CartItem }] = [] := by
      refine List.filter_eq_nil_iff.mpr ?_
      intro a ha hpa
      simp at ha
      rw [ha] at hpa
      rw [Bool.and_eq_true, beq_iff_eq, beq_iff_eq] at hpa
      exact hne ⟨hpa.1.symm, hpa.2.symm⟩
    rw [h2]
    simp

/-- C5: add_item never creates a second line for a product already in the
cart - it increments the existing line - and creates exactly one line, with
the given quantity and captured unit price, for a product not yet in the
cart; other (cart, product) pairs are untouched and the
one-line-per-product invariant is preserved.  Consequently adding the same
product twice (quantities q1 then q2) to a cart with no lines yields one
single line of quantity q1 + q2, and the cart subtotal is the captured unit
price times the aggregated quantity. -/
theorem c5_cart_line_aggregation (db : DB) (cid pid : Nat) (q1 q2 : ℤ)
    (pr : ℚ) (hwf : cart_wf db) :
    cart_wf (add_item db cid pid q1 pr) ∧
    (∀ it0, get_by_cart_and_product db cid pid = some it0 →
       lines_for (add_item db cid pid q1 pr) cid pid =
         [{ it0 with quantity := it0.quantity + q1 }]) ∧
    (get_by_cart_and_product db cid pid = none →
       lines_for (add_item db cid pid q1 pr) cid pid =
         [{ id := db.next_id, cart_id := cid, product_id := pid,
            quantity := q1, price := pr }]) ∧
    (∀ cid' pid', ¬(cid' = cid ∧ pid' = pid) →
       lines_for (add_item db cid pid q1 pr) cid' pid' = lines_for db cid' pid') ∧
    (cart_items_of db cid = [] →
       cart_items_of (add_item (add_item db cid pid q1 pr) cid pid q2 pr) cid =
         [{ id := db.next_id, cart_id := cid, product_id := pid,
            quantity := q1 + q2, price := pr }] ∧
       cart_subtotal
         (cart_items_of (add_item (add_item db cid pid q1 pr) cid pid q2 pr) cid) =
         pr * ((q1 + q2 : ℤ) : ℚ)) := by
  refine ⟨?_, ?_, ?_, ?_, ?_⟩
  · cases hf : get_by_cart_and_product db cid pid with
    | none => exact (add_item_fresh db cid pid q1 pr hwf hf).1
    | some it0 => exact (add_item_existing db cid pid q1 pr it0 hwf hf).1
  · intro it0 hf
    exact (add_item_existing db cid pid q1 pr it0 hwf hf).2.1
  · intro hf
    exact (add_item_fresh db cid pid q1 pr hwf hf).2.1
  · intro cid' pid' hne
    cases hf : get_by_cart_and_product db cid pid with
    | none => exact (add_item_fresh db cid pid q1 pr hwf hf).2.2 cid' pid' hne
    | some it0 => exact (add_item_existing db cid pid q1 pr it0 hwf hf).2.2 cid' pid' hne
  · intro hq
    unfold cart_items_of at hq
    have hacart : ∀ a ∈ db.cart_items, (a.cart_id == cid) = false := by
      intro a ha
      have h := List.filter_eq_nil_iff.mp hq a ha
      simpa using h
    have hfind1 : get_by_cart_and_product db cid pid = none := by
      unfold get_by_cart_and_product
      refine List.find?_eq_none.mpr ?_
      intro a ha
      simp [hacart a ha]
    have hfl : db.cart_items.find?
        (fun it => it.cart_id == cid && it.product_id == pid) = none := hfind1
    set db1 := add_item db cid pid q1 pr with hdb1
    have h1items : db1.cart_items =
        db.cart_items ++ [{ id := db.next_id, cart_id := cid, product_id := pid,
                            quantity := q1, price := pr }] := by
      rw [hdb1]
      simp [add_item, hfind1]
    have hfind2 : get_by_cart_and_product db1 cid pid =
        some { id := db.next_id, cart_id := cid, product_id := pid,
               quantity := q1, price := pr } := by
      unfold get_by_cart_and_product
      rw [h1items, List.find?_append, hfl]
      simp
    have h2items : (add_item db1 cid pid q2 pr).cart_items =
        db.cart_items ++ [{ id := db.next_id, cart_id := cid, product_id := pid,
                            quantity := q1 + q2, price := pr }] := by
      simp only [add_item, hfind2]
      unfold cartitem_set_quantity
      rw [h1items, List.map_append]
      dsimp only
      congr 1
      · apply map_fixed
        intro a ha
        have hb := hwf.1 a ha
        have hne : ¬ a.id = db.next_id := by omega
        simp [hne]
      · simp
    have hfinal : cart_items_of (add_item db1 cid pid q2 pr) cid =
        [{ id := db.next_id, cart_id := cid, product_id := pid,
           quantity := q1 + q2, price := pr }] := by
      unfold cart_items_of
      rw [h2items, List.filter_append, hq]
      simp
    refine ⟨hfinal, ?_⟩
    rw [hfinal]
    unfold cart_subtotal
    simp

/-- A database with one empty cart (id 4, user 9) and one active product. -/
def dbC5 : DB :=
  { products := fun k => if k = 1 then
      some { name := "Widget", price := 10, stock := 50, is_active := true }
      else none
    orders := fun _ => none
    order_items := []
    carts := [{ id := 4, user_id := 9 }]
    cart_items := []
    payments := fun _ => none
    coupons := fun _ => none
    next_id := 100 }

/-- C5 witness: adding product 1 twice (quantities 2 then 3, captured price
10) to the empty cart yields one single line of quantity 5 and subtotal 50. -/
theorem c5_witness :
    cart_items_of (add_item (add_item dbC5 4 1 2 10) 4 1 3 10) 4 =
      [{ id := 100, cart_id := 4, product_id := 1, quantity := 5, price := 10 }] ∧
    cart_subtotal (cart_items_of (add_item (add_item dbC5 4 1 2 10) 4 1 3 10) 4) = 50 := by
  have hwf : cart_wf dbC5 := by
    refine ⟨?_, ?_, ?_⟩ <;> simp [dbC5]
  have h := (c5_cart_line_aggregation dbC5 4 1 2 3 10 hwf).2.2.2.2 rfl
  constructor
  · rw [h.1]
    norm_num [dbC5]
  · rw [h.2]
    norm_num

/-! ## Claim C3 -/

/-- The total ordered quantity of one product across a list of order lines:
what cancellation must restore to that product. -/
def restock_qty (items : List OItem) (pid : Nat) : ℤ :=
  ((items.filter (fun it => it.product_id == pid)).map (fun it => it.quantity)).sum

/-- increase_stock leaves every other product row unchanged. -/
theorem increase_stock_products_other (db : DB) (k : Nat) (q : ℤ) (pid : Nat)
    (hne : pid ≠ k) :
    ((increase_stock db k q).2).products pid = db.products pid := by
  unfold increase_stock product_set_stock
  cases h : db.products k <;> simp [h, hne]

/-- increase_stock adds the quantity to an existing product row. -/
theorem increase_stock_products_same (db : DB) (k : Nat) (q : ℤ) (p : Product)
    (h : db.products k = some p) :
    ((increase_stock db k q).2).products k = some { p with stock := p.stock + q } := by
  unfold increase_stock product_set_stock
  simp [h]

/-- increase_stock never touches the orders table. -/
theorem increase_stock_orders (db : DB) (k : Nat) (q : ℤ) :
    ((increase_stock db k q).2).orders = db.orders := by
  unfold increase_stock product_set_stock
  cases h : db.products k <;> simp [h]

/-- The stock-restoring fold of cancel_order never touches the orders table. -/
theorem foldl_increase_orders (items : List OItem) :
    ∀ db : DB,
      (items.foldl (fun d it => (increase_stock d it.product_id it.quantity).2) db).orders
        = db.orders := by
  induction items with
  | nil => intro db; rfl
  | cons it rest ih =>
    intro db
    rw [List.foldl_cons, ih, increase_stock_orders]

/-- The stock-restoring fold of cancel_order adds to every product present
in the database exactly the summed quantity of the lines naming it. -/
theorem foldl_increase_products (items : List OItem) :
    ∀ (db : DB) (pid : Nat) (p : Product), db.products pid = some p →
      (items.foldl (fun d it => (increase_stock d it.product_id it.quantity).2) db).products pid
        = some { p with stock := p.stock + restock_qty items pid } := by
  induction items with
  | nil =>
    intro db pid p h
    simpa [restock_qty] using h
  | cons it rest ih =>
    intro db pid p h
    rw [List.foldl_cons]
    by_cases hpid : it.product_id = pid
    · have h1 : ((increase_stock db it.product_id it.quantity).2).products pid =
          some { p with stock := p.stock + it.quantity } := by
        rw [hpid]
        exact increase_stock_products_same db pid it.quantity p h
      rw [ih _ pid { p with stock := p.stock + it.quantity } h1]
      have hq : restock_qty (it :: rest) pid = it.quantity + restock_qty rest pid := by
        unfold restock_qty
        rw [List.filter_cons_of_pos (by simp [hpid])]
        simp
      rw [hq]
      simp [add_assoc]
    · have h1 : ((increase_stock db it.product_id it.quantity).2).products pid =
          some p := by
        rw [increase_stock_products_other db it.product_id it.quantity pid
          (fun he => hpid he.symm)]
        exact h
      rw [ih _ pid p h1]
      have hq : restock_qty (it :: rest) pid = restock_qty rest pid := by
        unfold restock_qty
        rw [List.filter_cons_of_neg (by simp [hpid])]
      rw [hq]

/-- Updating an existing order row by status returns the reloaded row and a
state differing only at that row. -/
theorem order_update_status_eq (db : DB) (oid : Nat) (st : OrderStatus)
    (o : OrderRow) (ho : db.orders oid = some o) :
    order_update_status db oid st =
      (some { o with status := st },
       { db with orders := fun k =>
           if k = oid then some { o with status := st } else db.orders k }) := by
  unfold order_update_status
  rw [ho]
  simp

/-- C3: for an existing order fetched by its owner (or without an ownership
check), cancel_order succeeds exactly when the status is pending or paid; on
success it adds back to every product the summed quantity of the order lines
naming it, sets the order to cancelled, and touches no other order; for any
other status it fails with a 400 business-rule error and returns the state
unchanged. -/
theorem c3_cancel_order_spec (db : DB) (oid : Nat) (uid : Option Nat)
    (o : OrderRow) (ho : db.orders oid = some o)
    (hown : uid = none ∨ uid = some o.user_id) :
    (¬(o.status = OrderStatus.pending ∨ o.status = OrderStatus.paid) →
       ∃ msg, cancel_order db oid uid = (.error (.badRequest msg), db)) ∧
    ((o.status = OrderStatus.pending ∨ o.status = OrderStatus.paid) →
       (cancel_order db oid uid).1 =
         .ok (some { o with status := OrderStatus.cancelled }) ∧
       (cancel_order db oid uid).2.orders oid =
         some { o with status := OrderStatus.cancelled } ∧
       (∀ k, k ≠ oid → (cancel_order db oid uid).2.orders k = db.orders k) ∧
       (∀ pid p, db.products pid = some p →
          (cancel_order db oid uid).2.products pid =
            some { p with stock := p.stock + restock_qty (order_items_of db oid) pid })) := by
  have hug : owner_mismatch o uid = false := by
    rcases hown with h | h <;> subst h <;> simp [owner_mismatch]
  constructor
  · intro hnc
    have hcb : can_be_cancelled o.status = false := by
      unfold can_be_cancelled
      simp only [Bool.or_eq_false_iff, decide_eq_false_iff_not]
      exact ⟨fun h => hnc (Or.inl h), fun h => hnc (Or.inr h)⟩
    refine ⟨"Cette commande ne peut plus etre annulee", ?_⟩
    unfold cancel_order
    rw [ho]
    simp [hug, hcb]
  · intro hcan
    have hcb : can_be_cancelled o.status = true := by
      rcases hcan with h | h <;> simp [can_be_cancelled, h]
    have h1o : ((order_items_of db oid).foldl
        (fun d it => (increase_stock d it.product_id it.quantity).2) db).orders oid
        = some o := by
      rw [foldl_increase_orders]
      exact ho
    have hupd := order_update_status_eq
      ((order_items_of db oid).foldl
        (fun d it => (increase_stock d it.product_id it.quantity).2) db)
      oid OrderStatus.cancelled o h1o
    have hceq : cancel_order db oid uid =
        (.ok (some { o with status := OrderStatus.cancelled }),
         { ((order_items_of db oid).foldl
             (fun d it => (increase_stock d it.product_id it.quantity).2) db) with
           orders := fun k =>
             if k = oid then some { o with status := OrderStatus.cancelled }
             else ((order_items_of db oid).foldl
               (fun d it => (increase_stock d it.product_id it.quantity).2) db).orders k }) := by
      unfold cancel_order
      rw [ho]
      simp [hug, hcb, hupd]
    refine ⟨by rw [hceq], ?_, ?_, ?_⟩
    · rw [hceq]
      simp
    · intro k hk
      rw [hceq]
      dsimp only
      rw [if_neg hk, foldl_increase_orders]
    · intro pid p hp
      rw [hceq]
      dsimp only
      exact foldl_increase_products (order_items_of db oid) db pid p hp

/-- A database with a paid order 10 of user 3 holding product 1 (qty 2,
stock 5) and product 2 (qty 3, stock 7). -/
def dbC3 : DB :=
  { products := fun k =>
      if k = 1 then some { name := "A", price := 20, stock := 5, is_active := true }
      else if k = 2 then some { name := "B", price := 30, stock := 7, is_active := true }
      else none
    orders := fun k => if k = 10 then
        some { user_id := 3, status := OrderStatus.paid, total_amount := 100 }
      else none
    order_items := [{ order_id := 10, product_id := 1, quantity := 2, unit_price := 20 },
                    { order_id := 10, product_id := 2, quantity := 3, unit_price := 30 }]
    carts := []
    cart_items := []
    payments := fun _ => none
    coupons := fun _ => none
    next_id := 11 }

/-- dbC3 with order 10 already shipped. -/
def shipped_orders_table : Nat → Option OrderRow := fun k =>
  if k = 10 then
    some { user_id := 3, status := OrderStatus.shipped, total_amount := 100 }
  else none

def dbC3ship : DB := { dbC3 with orders := shipped_orders_table }

/-- C3 witness: cancelling the paid order restores stock 5 to 7 (qty 2) and
7 to 10 (qty 3) and sets the order to cancelled; cancelling the shipped
variant fails with a 400 and changes nothing. -/
theorem c3_witness :
    (cancel_order dbC3 10 none).2.products 1 =
      some { name := "A", price := 20, stock := 7, is_active := true } ∧
    (cancel_order dbC3 10 none).2.products 2 =
      some { name := "B", price := 30, stock := 10, is_active := true } ∧
    (cancel_order dbC3 10 none).2.orders 10 =
      some { user_id := 3, status := OrderStatus.cancelled, total_amount := 100 } ∧
    (∃ msg, cancel_order dbC3ship 10 none = (.error (.badRequest msg), dbC3ship)) := by
  have h := c3_cancel_order_spec dbC3 10 none
    { user_id := 3, status := OrderStatus.paid, total_amount := 100 } rfl (Or.inl rfl)
  have hs := h.2 (Or.inr rfl)
  have hship := c3_cancel_order_spec dbC3ship 10 none
    { user_id := 3, status := OrderStatus.shipped, total_amount := 100 } rfl (Or.inl rfl)
  refine ⟨?_, ?_, hs.2.1, hship.1 (by decide)⟩
  · have hp := hs.2.2.2 1 { name := "A", price := 20, stock := 5, is_active := true } rfl
    rw [hp]
    norm_num [restock_qty, order_items_of, dbC3]
  · have hp := hs.2.2.2 2 { name := "B", price := 30, stock := 7, is_active := true } rfl
    rw [hp]
    norm_num [restock_qty, order_items_of, dbC3]

/-! ## Claim C2 -/

/-- A cart line the availability validation must reject: its product is
missing, inactive, or has stock strictly below the requested quantity. -/
def bad_line (db : DB) (it : CartItem) : Prop :=
  match db.products it.product_id with
  | none => True
  | some p => p.is_active = false ∨ p.stock < it.quantity

/-- The validation loop only ever raises 400 business-rule errors. -/
theorem validate_items_shape (db : DB) :
    ∀ items : List CartItem, validate_items db items = none ∨
      ∃ msg, validate_items db items = some (.badRequest msg) := by
  intro items
  induction items with
  | nil => exact Or.inl rfl
  | cons a t ih =>
    unfold validate_items
    cases hp : db.products a.product_id with
    | none => exact Or.inr ⟨_, rfl⟩
    | some p =>
      by_cases hact : p.is_active = true
      · by_cases hstock : p.stock < a.quantity
        · exact Or.inr ⟨"Stock insuffisant", by simp [hact, hstock]⟩
        · rcases ih with h | ⟨msg, h⟩
          · exact Or.inl (by simp [hact, hstock, h])
          · exact Or.inr ⟨msg, by simp [hact, hstock, h]⟩
      · rw [Bool.not_eq_true] at hact
        exact Or.inr ⟨"Le produit nest plus disponible", by simp [hact]⟩

/-- A cart containing a bad line never passes the validation loop. -/
theorem validate_items_ne_none (db : DB) :
    ∀ items : List CartItem, (∃ it ∈ items, bad_line db it) →
      validate_items db items ≠ none := by
  intro items
  induction items with
  | nil =>
    rintro ⟨it, hit, _⟩
    cases hit
  | cons a t ih =>
    rintro ⟨it, hit, hbad⟩ heq
    unfold validate_items at heq
    cases hp : db.products a.product_id with
    | none =>
      rw [hp] at heq
      cases heq
    | some p =>
      rw [hp] at heq
      by_cases hact : p.is_active = true
      · by_cases hstock : p.stock < a.quantity
        · simp [hact, hstock] at heq
        · simp [hact, hstock] at heq
          rcases List.mem_cons.mp hit with rfl | hmem
          · simp only [bad_line, hp] at hbad
            rcases hbad with hb | hb
            · rw [hact] at hb
              cases hb
            · exact hstock hb
          · exact ih ⟨it, hmem, hbad⟩ heq
      · rw [Bool.not_eq_true] at hact
        simp [hact] at heq

/-- C2: when the cart of the user holds at least one line whose product is
missing, inactive, or under-stocked, create_order_from_cart fails with a 400
business-rule error and returns the database exactly as received: no order
row, no order items, no stock decrement, and the cart still intact. -/
theorem c2_create_order_atomic (db : DB) (uid : Nat) (od : OrderFromCart)
    (now : Int) (cart : CartRow)
    (hc : cart_get_by_user_id db uid = some cart)
    (hbad : ∃ it ∈ cart_items_of db cart.id, bad_line db it) :
    ∃ msg, create_order_from_cart db uid od now =
      (.error (.badRequest msg), db) := by
  have hne : (cart_items_of db cart.id).isEmpty = false := by
    obtain ⟨it, hit, _⟩ := hbad
    cases h : cart_items_of db cart.id with
    | nil => rw [h] at hit; cases hit
    | cons a t => rfl
  rcases validate_items_shape db (cart_items_of db cart.id) with hv | ⟨msg, hv⟩
  · exact absurd hv (validate_items_ne_none db _ hbad)
  · refine ⟨msg, ?_⟩
    unfold create_order_from_cart
    rw [hc]
    simp [hne, hv]

/-- A database where user 3 has cart 5 holding product 1 at quantity 2
while the product has stock 1. -/
def dbC2 : DB :=
  { products := fun k => if k = 1 then
      some { name := "Widget", price := 10, stock := 1, is_active := true }
      else none
    orders := fun _ => none
    order_items := []
    carts := [{ id := 5, user_id := 3 }]
    cart_items := [{ id := 6, cart_id := 5, product_id := 1, quantity := 2, price := 10 }]
    payments := fun _ => none
    coupons := fun _ => none
    next_id := 7 }

/-- C2 witness: checkout of the stock-1 quantity-2 cart fails with a 400
and the returned state is exactly the input state - stock still 1, cart
still populated, no order row. -/
theorem c2_witness :
    ∃ msg, create_order_from_cart dbC2 3 { coupon_code := none } 0 =
      (.error (.badRequest msg), dbC2) := by
  apply c2_create_order_atomic dbC2 3 { coupon_code := none } 0
    { id := 5, user_id := 3 } rfl
  refine ⟨{ id := 6, cart_id := 5, product_id := 1, quantity := 2, price := 10 }, ?_, ?_⟩
  · decide
  · simp only [bad_line, dbC2]
    norm_num
